import Mathlib

/-!
Verification of `lib/sockets.js` from the node-sctp repository: a shallow
embedding of the `Socket` class (an RFC 6458 style stream adapter over an
SCTP association) and proofs about its connect, data-path, lifecycle and
teardown behaviour.

Modelling conventions:
* JavaScript primitive values that the code inspects dynamically are
  modelled by `JSVal`; `~~x` (ToInt32 coercion) by `JSVal.toInt32`.
* The external collaborators `Endpoint` and `Association` are modelled by
  records carrying exactly the fields the socket code reads or writes;
  JavaScript object identity of associations is modelled by an `id` field.
* Calls into the collaborators and events emitted on the socket are
  recorded as an explicit `Effect` list; a thrown JavaScript exception is
  an `Option JsError` in the `Outcome` record (field mutations performed
  before the throw persist, as in JavaScript).
* Logging is omitted (the default logger is a no-op), and `emit` is
  modelled as a pure effect (listener dispatch is external to this file).
-/

namespace NodeSctp

/-- A JavaScript primitive value as inspected by the socket code.
NaN and composite values are not needed by any code path modelled here. -/
inductive JSVal where
  | undef
  | null
  | num (n : Int)
  | str (s : String)
  | bool (b : Bool)
deriving DecidableEq, Repr

/-- JavaScript truthiness of a primitive value. -/
def JSVal.truthy : JSVal → Bool
  | .undef => false
  | .null => false
  | .num n => n != 0
  | .str s => s != ""
  | .bool b => b

/-- Signed 32-bit wrap-around, the result range of JavaScript ToInt32. -/
def int32 (n : Int) : Int :=
  let m := n % 4294967296
  if m < 2147483648 then m else m - 4294967296

/-- The `~~x` coercion applied by `connect` to `options.port` and
`options.localPort`: ToInt32.  String-to-number conversion is modelled by
decimal parsing (a non-numeric string coerces to 0, as NaN does). -/
def JSVal.toInt32 : JSVal → Int
  | .undef => 0
  | .null => 0
  | .num n => int32 n
  | .str s => int32 ((s.toInt?).getD 0)
  | .bool b => if b then 1 else 0

/-- Property lookup on a JavaScript object modelled as a key-value list. -/
def lookupKey : List (String × JSVal) → String → Option JSVal
  | [], _ => none
  | (k2, v) :: rest, k => if k2 = k then some v else lookupKey rest k

/-- Property assignment `target[k] = v`: update the existing key in place,
or append a new key. -/
def setKey : List (String × JSVal) → String → JSVal → List (String × JSVal)
  | [], k, v => [(k, v)]
  | (k2, v2) :: rest, k, v =>
    if k2 = k then (k2, v) :: rest else (k2, v2) :: setKey rest k v

/-- `Object.assign(target, src)`: copy every key of `src` onto `target`. -/
def objAssign (target : List (String × JSVal)) : List (String × JSVal) → List (String × JSVal)
  | [] => target
  | (k, v) :: rest => objAssign (setKey target k v) rest

/-- JavaScript string concatenation of a possibly-absent number, as in
`"unable to allocate port " + initOptions.localPort`. -/
def showOptInt : Option Int → String
  | none => "undefined"
  | some n => toString n

/-- `ip.isV4Format`: the regex used by the `ip` package accepts four runs
of one to three decimal digits separated by dots. -/
def isV4Format (s : String) : Bool :=
  match s.split (· = '.') with
  | [a, b, c, d] =>
    [a, b, c, d].all fun p => decide (1 ≤ p.length) && decide (p.length ≤ 3) && p.all Char.isDigit
  | _ => false

/-- The `multi` helper inside `connect`: keep only IPv4-formatted
addresses.  A single (non-array) address is modelled as a one-element
list, matching the `Array.isArray` wrapping in the code. -/
def multi (addresses : List String) : List String :=
  addresses.filter isV4Format

/-- An `Association` object as seen by the socket code: remote peer
coordinates, plus the fields written by `SCTP_PEER_ADDR_PARAMS`.  The
`id` field models JavaScript object identity, so that two distinct
association objects with the same peer coordinates stay distinct. -/
structure Association where
  id : Nat
  remotePort : Int
  remoteAddress : String
  sack_timeout : Option JSVal := none
  sack_freq : Option JSVal := none
  hb_interval : Option JSVal := none
deriving DecidableEq, Repr

/-- An `Endpoint` object as seen by the socket code: the bound local
coordinates, plus the field written by `SCTP_ASSOCINFO`. -/
structure Endpoint where
  localPort : Int
  localAddress : String
  valid_cookie_life : Option JSVal := none
deriving DecidableEq, Repr

/-- A thrown JavaScript exception: an explicit `new Error(msg)` or a
TypeError produced by dereferencing `undefined`/`null`. -/
inductive JsError where
  | error (msg : String)
  | typeError (msg : String)
deriving DecidableEq, Repr

/-- The mutable state of a `Socket` instance.  Fields that the
constructor leaves undefined and `_construct` later assigns are
`Option`-valued (`none` models the JavaScript `undefined`).  `port` and
`host` are the expected-peer fields read by the passive-mode filter;
the code never assigns them, so they are set externally by the caller.
The unused `writeBuffer` array is omitted. -/
structure Socket where
  p2p : Bool := false
  port : Option Int := none
  host : Option String := none
  sctp_sndrcvinfo : List (String × JSVal) := []
  destroyed : Option Bool := none
  connecting : Option Bool := none
  bufferSize : Option Int := none
  bytesRead : Option Int := none
  bytesWritten : Option Int := none
  _endpoint : Option Endpoint := none
  _association : Option Association := none
  localPort : Option Int := none
  localAddress : Option String := none
  remotePort : Option Int := none
  remoteAddress : Option String := none
  remoteFamily : Option String := none
deriving DecidableEq, Repr

/-- `new Socket(options)`: `sctp_sndrcvinfo` starts as an object with the
single key `protocol` holding `options.protocol` (possibly undefined). -/
def Socket.create (protocol : JSVal) : Socket :=
  { sctp_sndrcvinfo := [("protocol", protocol)] }

/-- `socket.address()`. -/
def Socket.address (s : Socket) : Option Int × Option String × String :=
  (s.localPort, s.localAddress, "IPv4")

/-- The `initOptions` object built by `connect` and handed to
`Endpoint.INITIALIZE`.  `localPort` is present only when
`options.localPort` is truthy and coerces to a non-zero int32. -/
structure InitOptions where
  MIS : Option Int := none
  OS : Option Int := none
  localAddress : Option (List String) := none
  localPort : Option Int := none
deriving DecidableEq, Repr

/-- The `assocOptions` object built by `connect` and handed to
`endpoint.ASSOCIATE`. -/
structure AssocOptions where
  streams : Int := 1
  remotePort : Int := 0
  remoteAddress : String := ""
deriving DecidableEq, Repr

/-- The fields of a `connect` options object that the code reads. -/
structure ConnectOptions where
  port : JSVal := .undef
  host : Option String := none
  localAddress : Option (List String) := none
  localPort : JSVal := .undef
  MIS : Option Int := none
  OS : Option Int := none
  listen : JSVal := .undef
deriving DecidableEq, Repr

/-- The `options` argument of `connect` as a dynamic value:
absent (`undefined`), a value whose `typeof` is not `"object"`
(number, string, boolean, function), `null` (whose `typeof` IS
`"object"`), or a proper options object. -/
inductive JSArg where
  | undef
  | nonObjectValue
  | null
  | obj (o : ConnectOptions)
deriving Repr

/-- Observable actions of the socket code: calls into the Endpoint and
Association collaborators, events emitted on the socket, stream pushes,
and invocations of a pending completion callback. -/
inductive Effect where
  | initCall (opts : InitOptions)
  | emitError (msg : String)
  | addConnectListener
  | registerListenHandler
  | associateCall (opts : AssocOptions)
  | wireAssocEvents (a : Association)
  | emit (event : String)
  | abortCall (a : Association)
  | abortErrCall (err : Option String)
  | callbackOk
  | callbackErr (msg : String)
  | sendCall (chunk : List Int) (info : List (String × JSVal))
  | shutdownCall
  | push (buffer : List Int)
  | destroyEndpointCall
deriving DecidableEq, Repr

/-- The result of running one socket method: the socket state after the
method (mutations made before a throw persist, as in JavaScript), the
effects performed in order, and the exception the method threw, if any. -/
structure Outcome where
  state : Socket
  effects : List Effect
  thrown : Option JsError := none
deriving DecidableEq, Repr

/-- `_construct(endpoint, association)`: bind the socket to an endpoint
and an association, resetting flags and counters and copying the
coordinate fields.  The five association event listeners it registers
are modelled by the standalone handler functions below. -/
def Socket._construct (s : Socket) (endpoint : Endpoint) (association : Association) : Socket :=
  { s with
    destroyed := some false
    connecting := some false
    bufferSize := some 0
    bytesRead := some 0
    bytesWritten := some 0
    _endpoint := some endpoint
    localPort := some endpoint.localPort
    localAddress := some endpoint.localAddress
    _association := some association
    remotePort := some association.remotePort
    remoteAddress := some association.remoteAddress
    remoteFamily := some "IPv4" }

/-- The listener `_construct` registers on the association's
COMMUNICATION UP event. -/
def commUpHandler : List Effect := [.emit "connect"]

/-- The listener `_construct` registers on DATA ARRIVE: fetch the
pending payload via `RECEIVE(stream_id)` (modelled by the `receive`
oracle) and push it if it is present. -/
def dataArriveHandler (receive : Int → Option (List Int)) (stream_id : Int) : List Effect :=
  match receive stream_id with
  | some buffer => [.push buffer]
  | none => []

/-- The listener `_construct` registers on SHUTDOWN COMPLETE: in p2p
mode destroy the owned endpoint, then emit `end`. -/
def shutdownCompleteHandler (p2p : Bool) : List Effect :=
  (if p2p then [Effect.destroyEndpointCall] else []) ++ [Effect.emit "end"]

/-- The listener `_construct` registers on COMMUNICATION LOST: in p2p
mode destroy the owned endpoint, then emit `close`. -/
def commLostHandler (p2p : Bool) : List Effect :=
  (if p2p then [Effect.destroyEndpointCall] else []) ++ [Effect.emit "close"]

/-- The listener `_construct` registers on COMMUNICATION ERROR. -/
def commErrorHandler : List Effect := [.emit "error"]

/-- The listener registered on the endpoint's COMMUNICATION UP event in
passive (listen) mode: if the inbound association's remote coordinates
strictly equal the socket's expected `port`/`host`, bind via
`_construct` and emit `connect`; otherwise abort the association. -/
def listenCommUpHandler (s : Socket) (endpoint : Endpoint) (association : Association) :
    Socket × List Effect :=
  if s.port = some association.remotePort ∧ s.host = some association.remoteAddress then
    (s._construct endpoint association, [.wireAssocEvents association, .emit "connect"])
  else
    (s, [.abortCall association])

/-- The `assocOptions` record: `streams: 1`, the ToInt32-coerced remote
port, and `options.host || "127.0.0.1"`. -/
def mkAssocOptions (o : ConnectOptions) : AssocOptions :=
  { streams := 1
    remotePort := o.port.toInt32
    remoteAddress :=
      match o.host with
      | none => "127.0.0.1"
      | some h => if h = "" then "127.0.0.1" else h }

/-- The `initOptions` record: pass MIS/OS through, filter
`localAddress` with `multi`, keep `localPort` only when truthy and
non-zero after coercion. -/
def mkInitOptions (o : ConnectOptions) : InitOptions :=
  { MIS := o.MIS
    OS := o.OS
    localAddress :=
      match o.localAddress with
      | some addrs => some (multi addrs)
      | none => none
    localPort :=
      if o.localPort.truthy && (o.localPort.toInt32 != 0) then some o.localPort.toInt32
      else none }

/-- `connect(options, connectListener)`.  `INITIALIZE` is the
`Endpoint.INITIALIZE` oracle (returning `none` when no endpoint can be
allocated) and `associate` the `endpoint.ASSOCIATE` oracle.  Faithful to
the code: the `p2p` flag is set before any validation; validation errors
are thrown; an allocation failure emits an `error` event and execution
then continues into a dereference of the absent endpoint, which throws a
TypeError. -/
def Socket.connect (s : Socket) (options : JSArg) (hasConnectListener : Bool)
    (INITIALIZE : InitOptions → Option Endpoint)
    (associate : AssocOptions → Association) : Outcome :=
  if s.p2p then { state := s, effects := [] }
  else
    let s1 : Socket := { s with p2p := true }
    match options with
    | .undef => { state := s1, effects := [], thrown := some (.error "options required") }
    | .nonObjectValue => { state := s1, effects := [], thrown := some (.error "options required") }
    | .null =>
      { state := s1, effects := []
        thrown := some (.typeError "Cannot read properties of null (reading port)") }
    | .obj o =>
      if o.port.toInt32 = 0 then
        { state := s1, effects := [], thrown := some (.error "port is required") }
      else
        let initOptions := mkInitOptions o
        let assocOptions := mkAssocOptions o
        let endpointOpt := INITIALIZE initOptions
        let effs : List Effect :=
          [Effect.initCall initOptions]
          ++ (match endpointOpt with
              | none =>
                [Effect.emitError ("unable to allocate port " ++ showOptInt initOptions.localPort)]
              | some _ => [])
          ++ (if hasConnectListener then [Effect.addConnectListener] else [])
        if o.listen.truthy then
          match endpointOpt with
          | none =>
            { state := s1, effects := effs
              thrown := some (.typeError "Cannot read properties of null (reading on)") }
          | some _ =>
            { state := s1, effects := effs ++ [Effect.registerListenHandler] }
        else
          match endpointOpt with
          | none =>
            { state := s1, effects := effs
              thrown := some (.typeError "Cannot read properties of null (reading ASSOCIATE)") }
          | some endpoint =>
            let association := associate assocOptions
            { state := Socket._construct s1 endpoint association
              effects := effs
                ++ [Effect.associateCall assocOptions, Effect.wireAssocEvents association] }

/-- `_final(callback)` (run by `end()`): when an association is bound,
hand the completion callback to its SHUTDOWN; otherwise do nothing, so
the callback is never invoked. -/
def Socket._final (s : Socket) : List Effect :=
  match s._association with
  | some _ => [Effect.shutdownCall]
  | none => []

/-- `SCTP_ASSOCINFO(options)`: when an endpoint is bound and `options`
is an object, copy the single recognised key `valid_cookie_life` onto
the endpoint; otherwise a no-op. -/
def Socket.SCTP_ASSOCINFO (s : Socket) (options : Option (List (String × JSVal))) : Socket :=
  match s._endpoint, options with
  | some e, some opts =>
    (match lookupKey opts "valid_cookie_life" with
     | some v => { s with _endpoint := some { e with valid_cookie_life := some v } }
     | none => s)
  | _, _ => s

/-- `SCTP_DEFAULT_SEND_PARAM(options)`:
`Object.assign(this.sctp_sndrcvinfo, options)`. -/
def Socket.SCTP_DEFAULT_SEND_PARAM (s : Socket) (options : List (String × JSVal)) : Socket :=
  { s with sctp_sndrcvinfo := objAssign s.sctp_sndrcvinfo options }

/-- `SCTP_PEER_ADDR_PARAMS(options)`: when an association is bound and
`options` is an object, copy the recognised keys `sack_timeout`,
`sack_freq`, `hb_interval` onto the association; otherwise a no-op. -/
def Socket.SCTP_PEER_ADDR_PARAMS (s : Socket) (options : Option (List (String × JSVal))) : Socket :=
  match s._association, options with
  | some a, some opts =>
    let a1 := match lookupKey opts "sack_timeout" with
      | some v => { a with sack_timeout := some v }
      | none => a
    let a2 := match lookupKey opts "sack_freq" with
      | some v => { a1 with sack_freq := some v }
      | none => a1
    let a3 := match lookupKey opts "hb_interval" with
      | some v => { a2 with hb_interval := some v }
      | none => a2
    { s with _association := some a3 }
  | _, _ => s

/-- `_read(size)`: a deliberate no-op. -/
def Socket._read (s : Socket) (_size : Int) : Socket × List Effect := (s, [])

/-- `_write(chunk, options, callback)`: forward the chunk to the bound
association's SEND together with the current `sctp_sndrcvinfo`
defaults; with no association, fail the callback. -/
def Socket._write (s : Socket) (chunk : List Int) : List Effect :=
  match s._association with
  | some _ => [Effect.sendCall chunk s.sctp_sndrcvinfo]
  | none => [Effect.callbackErr "no association established"]

/-- `_destroy(err, callback)`: call `this._association.ABORT(err)` and
then the callback with no arguments.  With no bound association the
dereference of `undefined` throws and the callback is never reached.
`abortResult` models the outcome of the ABORT call itself; the code
ignores it. -/
def Socket._destroy (s : Socket) (err : Option String) (abortResult : Bool) : Outcome :=
  match s._association with
  | none =>
    { state := s, effects := []
      thrown := some (.typeError "Cannot read properties of undefined (reading ABORT)") }
  | some _ =>
    let _ := abortResult
    { state := s, effects := [Effect.abortErrCall err, Effect.callbackOk], thrown := none }

/-- One operation that can run on a socket after it is bound: a public
method call or the firing of one of the registered event listeners. -/
inductive SocketOp where
  | write (chunk : List Int)
  | read (size : Int)
  | finalize
  | destroy (err : Option String) (abortResult : Bool)
  | defaultSendParam (options : List (String × JSVal))
  | assocInfo (options : Option (List (String × JSVal)))
  | peerAddrParams (options : Option (List (String × JSVal)))
  | connectCall (options : JSArg) (hasConnectListener : Bool)
      (INITIALIZE : InitOptions → Option Endpoint) (associate : AssocOptions → Association)
  | assocCommUp
  | dataArrive (receive : Int → Option (List Int)) (stream_id : Int)
  | shutdownComplete
  | commLost
  | commError
  | listenCommUp (endpoint : Endpoint) (association : Association)

/-- The socket state reached after one operation (effects discarded). -/
def stepState (s : Socket) : SocketOp → Socket
  | .write _ => s
  | .read _ => s
  | .finalize => s
  | .destroy err r => (s._destroy err r).state
  | .defaultSendParam o => s.SCTP_DEFAULT_SEND_PARAM o
  | .assocInfo o => s.SCTP_ASSOCINFO o
  | .peerAddrParams o => s.SCTP_PEER_ADDR_PARAMS o
  | .connectCall o hl I A => (s.connect o hl I A).state
  | .assocCommUp => s
  | .dataArrive _ _ => s
  | .shutdownComplete => s
  | .commLost => s
  | .commError => s
  | .listenCommUp e a => (listenCommUpHandler s e a).1

/-- The three byte counters all hold 0. -/
def countersZero (s : Socket) : Prop :=
  s.bytesRead = some 0 ∧ s.bytesWritten = some 0 ∧ s.bufferSize = some 0

/-! Concrete fixtures used by witness and counterexample theorems. -/

/-- A first inbound association from peer 10.0.0.1:9. -/
def assocA : Association := { id := 1, remotePort := 9, remoteAddress := "10.0.0.1" }

/-- A second, distinct inbound association from the same peer. -/
def assocB : Association := { id := 2, remotePort := 9, remoteAddress := "10.0.0.1" }

/-- An inbound association from a different remote port. -/
def assocOther : Association := { id := 3, remotePort := 12, remoteAddress := "10.0.0.1" }

/-- A bound local endpoint. -/
def endpointEx : Endpoint := { localPort := 3000, localAddress := "0.0.0.0" }

/-- A freshly constructed socket (protocol identifier 5), not yet bound. -/
def freshSock : Socket := Socket.create (JSVal.num 5)

/-- A fresh socket whose expected-peer fields are set for passive mode. -/
def listenSock : Socket := { freshSock with port := some 9, host := some "10.0.0.1" }

/-- A socket already bound to `endpointEx` and `assocA`. -/
def boundSock : Socket := Socket._construct freshSock endpointEx assocA

/-- A socket on which `connect` has already run once. -/
def p2pSock : Socket := { freshSock with p2p := true }

/-- An `endpoint.ASSOCIATE` oracle producing a fresh association for the
requested peer. -/
def assocOracle : AssocOptions → Association :=
  fun o => { id := 7, remotePort := o.remotePort, remoteAddress := o.remoteAddress }

/-! Helper lemmas about object property assignment. -/

theorem lookupKey_setKey_self (o : List (String × JSVal)) (k : String) (v : JSVal) :
    lookupKey (setKey o k v) k = some v := by
  induction o with
  | nil => simp [setKey, lookupKey]
  | cons hd tl ih =>
    obtain ⟨k2, v2⟩ := hd
    by_cases h : k2 = k
    · simp [setKey, lookupKey, h]
    · simp [setKey, lookupKey, h, ih]

theorem lookupKey_setKey_other (o : List (String × JSVal)) (k k2 : String) (v : JSVal)
    (h : k2 ≠ k) : lookupKey (setKey o k2 v) k = lookupKey o k := by
  induction o with
  | nil => simp [setKey, lookupKey, h]
  | cons hd tl ih =>
    obtain ⟨k3, v3⟩ := hd
    by_cases h3 : k3 = k2
    · subst h3
      simp [setKey, lookupKey, h]
    · simp only [setKey, if_neg h3]
      by_cases hk : k3 = k
      · simp [lookupKey, hk]
      · simp [lookupKey, hk, ih]

theorem objAssign_single (o : List (String × JSVal)) (k : String) (v : JSVal) :
    objAssign o [(k, v)] = setKey o k v := rfl

/-! Claim theorems. -/

/-- C5: with a bound association, a write of chunk X performs exactly one
SEND call carrying X and the current default send parameters; after
`SCTP_DEFAULT_SEND_PARAM` with protocol 7 the parameter bag maps
`protocol` to 7 and keeps every other key unchanged, and the next write
sends that merged bag; with no association, the write's callback is
failed with "no association established" and no send occurs. -/
theorem C5_write_send_params (s t : Socket) (a : Association) (chunk : List Int)
    (hs : s._association = some a) (ht : t._association = none) :
    s._write chunk = [Effect.sendCall chunk s.sctp_sndrcvinfo] ∧
    (s.SCTP_DEFAULT_SEND_PARAM [("protocol", JSVal.num 7)])._write chunk
      = [Effect.sendCall chunk
          (s.SCTP_DEFAULT_SEND_PARAM [("protocol", JSVal.num 7)]).sctp_sndrcvinfo] ∧
    lookupKey (s.SCTP_DEFAULT_SEND_PARAM [("protocol", JSVal.num 7)]).sctp_sndrcvinfo "protocol"
      = some (JSVal.num 7) ∧
    (∀ k, k ≠ "protocol" →
      lookupKey (s.SCTP_DEFAULT_SEND_PARAM [("protocol", JSVal.num 7)]).sctp_sndrcvinfo k
        = lookupKey s.sctp_sndrcvinfo k) ∧
    t._write chunk = [Effect.callbackErr "no association established"] := by
  refine ⟨?_, ?_, ?_, ?_, ?_⟩
  · simp [Socket._write, hs]
  · simp [Socket._write, Socket.SCTP_DEFAULT_SEND_PARAM, hs]
  · simp [Socket.SCTP_DEFAULT_SEND_PARAM, objAssign_single, lookupKey_setKey_self]
  · intro k hk
    simp [Socket.SCTP_DEFAULT_SEND_PARAM, objAssign_single,
      lookupKey_setKey_other _ _ _ _ (fun h => hk h.symm)]
  · simp [Socket._write, ht]

theorem C5_write_send_params_witness :
    boundSock._write [1, 2] = [Effect.sendCall [1, 2] boundSock.sctp_sndrcvinfo] ∧
    lookupKey
        (boundSock.SCTP_DEFAULT_SEND_PARAM [("protocol", JSVal.num 7)]).sctp_sndrcvinfo
        "protocol" = some (JSVal.num 7) ∧
    lookupKey
        (boundSock.SCTP_DEFAULT_SEND_PARAM [("protocol", JSVal.num 7)]).sctp_sndrcvinfo
        "ppid" = lookupKey boundSock.sctp_sndrcvinfo "ppid" ∧
    freshSock._write [1, 2] = [Effect.callbackErr "no association established"] := by
  have h := C5_write_send_params boundSock freshSock assocA [1, 2] rfl rfl
  exact ⟨h.1, h.2.2.1, h.2.2.2.1 "ppid" (by decide), h.2.2.2.2⟩

/-- C6: the SHUTDOWN COMPLETE listener emits `end` and never `close`;
the COMMUNICATION LOST listener emits `close` and never `end`; in p2p
mode (and only then) both listeners also destroy the owned endpoint. -/
theorem C6_lifecycle_events :
    (∀ p2p : Bool,
      Effect.emit "end" ∈ shutdownCompleteHandler p2p ∧
      Effect.emit "close" ∉ shutdownCompleteHandler p2p ∧
      Effect.emit "close" ∈ commLostHandler p2p ∧
      Effect.emit "end" ∉ commLostHandler p2p) ∧
    Effect.destroyEndpointCall ∈ shutdownCompleteHandler true ∧
    Effect.destroyEndpointCall ∈ commLostHandler true ∧
    Effect.destroyEndpointCall ∉ shutdownCompleteHandler false ∧
    Effect.destroyEndpointCall ∉ commLostHandler false := by decide

/-- C8: once `connect` has run (the `p2p` flag is set), any further
`connect` call returns immediately: no effect is performed, nothing is
thrown, and the state is unchanged. -/
theorem C8_connect_idempotent (s : Socket) (options : JSArg) (hl : Bool)
    (INITIALIZE : InitOptions → Option Endpoint) (associate : AssocOptions → Association)
    (h : s.p2p = true) :
    s.connect options hl INITIALIZE associate
      = { state := s, effects := [], thrown := none } := by
  simp [Socket.connect, h]

theorem C8_connect_idempotent_witness :
    p2pSock.connect (JSArg.obj { port := JSVal.num 9 }) true (fun _ => some endpointEx)
        assocOracle = { state := p2pSock, effects := [], thrown := none } :=
  C8_connect_idempotent p2pSock (JSArg.obj { port := JSVal.num 9 }) true
    (fun _ => some endpointEx) assocOracle rfl

/-- C9: `_final` hands its completion callback to the association's
SHUTDOWN exactly when an association is bound; with no bound
association it performs no action at all, so the callback is never
invoked and the graceful close never completes. -/
theorem C9_final_callback_iff_bound (s t : Socket) (a : Association)
    (hs : s._association = some a) (ht : t._association = none) :
    s._final = [Effect.shutdownCall] ∧ t._final = [] := by
  constructor
  · simp [Socket._final, hs]
  · simp [Socket._final, ht]

theorem C9_final_callback_iff_bound_witness :
    boundSock._final = [Effect.shutdownCall] ∧ freshSock._final = [] :=
  C9_final_callback_iff_bound boundSock freshSock assocA rfl rfl

/-- C7: on a passive-mode socket expecting peer (H, P), an inbound
association with exactly those coordinates is bound (via `_construct`)
and `connect` is emitted; an inbound association with a different
remote port is aborted and the socket stays unbound, with no `end` or
`close` emitted. -/
theorem C7_passive_match_filter (s : Socket) (e : Endpoint) (a b : Association)
    (H : String) (P : Int)
    (hport : s.port = some P) (hhost : s.host = some H)
    (hunbound : s._association = none)
    (ha1 : a.remotePort = P) (ha2 : a.remoteAddress = H)
    (hb : b.remotePort ≠ P) :
    listenCommUpHandler s e a
      = (s._construct e a, [Effect.wireAssocEvents a, Effect.emit "connect"]) ∧
    (s._construct e a)._association = some a ∧
    listenCommUpHandler s e b = (s, [Effect.abortCall b]) ∧
    (listenCommUpHandler s e b).1._association = none ∧
    Effect.emit "end" ∉ (listenCommUpHandler s e b).2 ∧
    Effect.emit "close" ∉ (listenCommUpHandler s e b).2 := by
  have hmatch : s.port = some a.remotePort ∧ s.host = some a.remoteAddress := by
    rw [ha1, ha2]; exact ⟨hport, hhost⟩
  have hmis : ¬(s.port = some b.remotePort ∧ s.host = some b.remoteAddress) := by
    rintro ⟨h1, h2⟩
    rw [hport] at h1
    exact hb (Option.some_injective _ h1).symm
  have hB : listenCommUpHandler s e b = (s, [Effect.abortCall b]) := by
    simp only [listenCommUpHandler]
    rw [if_neg hmis]
  refine ⟨?_, ?_, hB, ?_, ?_, ?_⟩
  · simp only [listenCommUpHandler]
    rw [if_pos hmatch]
  · simp [Socket._construct]
  · rw [hB]; exact hunbound
  · rw [hB]; simp
  · rw [hB]; simp

theorem C7_passive_match_filter_witness :
    listenCommUpHandler listenSock endpointEx assocA
      = (listenSock._construct endpointEx assocA,
          [Effect.wireAssocEvents assocA, Effect.emit "connect"]) ∧
    (listenSock._construct endpointEx assocA)._association = some assocA ∧
    listenCommUpHandler listenSock endpointEx assocOther
      = (listenSock, [Effect.abortCall assocOther]) ∧
    (listenCommUpHandler listenSock endpointEx assocOther).1._association = none ∧
    Effect.emit "end" ∉ (listenCommUpHandler listenSock endpointEx assocOther).2 ∧
    Effect.emit "close" ∉ (listenCommUpHandler listenSock endpointEx assocOther).2 :=
  C7_passive_match_filter listenSock endpointEx assocA assocOther "10.0.0.1" 9
    rfl rfl rfl rfl rfl (by decide)

/-- C1 counterexample: the claim quantifies over every socket, but
destroying a socket that has no bound association dereferences
`undefined`, throws a TypeError, and never reaches the completion
callback — destruction does fail locally there. -/
theorem C1_destroy_unbound_throws :
    (freshSock._destroy none true).thrown
      = some (JsError.typeError "Cannot read properties of undefined (reading ABORT)") ∧
    Effect.callbackOk ∉ (freshSock._destroy none true).effects := by decide

/-- C1 (amended): on a socket with a bound association, `_destroy`
always calls ABORT with the given error and then invokes the completion
callback with no error, whatever the ABORT call's own outcome is — the
code ignores it. -/
theorem C1_destroy_callback_ok (s : Socket) (a : Association) (err : Option String)
    (abortResult : Bool) (h : s._association = some a) :
    s._destroy err abortResult
      = { state := s, effects := [Effect.abortErrCall err, Effect.callbackOk]
          thrown := none } := by
  simp [Socket._destroy, h]

theorem C1_destroy_callback_ok_witness :
    boundSock._destroy (some "boom") false
      = { state := boundSock, effects := [Effect.abortErrCall (some "boom"), Effect.callbackOk]
          thrown := none } :=
  C1_destroy_callback_ok boundSock assocA (some "boom") false rfl

/-- C2 counterexample: after a first matching inbound association has
bound the listening socket, a second matching inbound association (a
distinct object from the same peer) is not aborted; it re-binds the
socket, replacing the attached association. -/
theorem C2_rebind_counterexample :
    (listenCommUpHandler listenSock endpointEx assocA).1._association = some assocA ∧
    (listenCommUpHandler (listenCommUpHandler listenSock endpointEx assocA).1
        endpointEx assocB).1._association = some assocB ∧
    Effect.abortCall assocB
      ∉ (listenCommUpHandler (listenCommUpHandler listenSock endpointEx assocA).1
          endpointEx assocB).2 ∧
    assocB ≠ assocA := by decide

/-- C2 (amended): the passive-mode filter compares only the expected
peer coordinates, never whether the socket is already bound: a further
inbound association that mismatches is aborted, but a further matching
inbound association re-binds the socket to the new association instead
of being rejected, so the attached association is the most recent
matching one. -/
theorem C2_rebind_behavior (s : Socket) (e : Endpoint) (a1 a2 b : Association)
    (h1p : s.port = some a1.remotePort) (h1h : s.host = some a1.remoteAddress)
    (h2p : a2.remotePort = a1.remotePort) (h2h : a2.remoteAddress = a1.remoteAddress)
    (hbp : b.remotePort ≠ a1.remotePort) :
    (listenCommUpHandler s e a1).1._association = some a1 ∧
    (listenCommUpHandler (listenCommUpHandler s e a1).1 e a2).1._association = some a2 ∧
    Effect.abortCall a2
      ∉ (listenCommUpHandler (listenCommUpHandler s e a1).1 e a2).2 ∧
    (listenCommUpHandler (listenCommUpHandler s e a1).1 e b).1
      = (listenCommUpHandler s e a1).1 ∧
    Effect.abortCall b ∈ (listenCommUpHandler (listenCommUpHandler s e a1).1 e b).2 := by
  have hc1 : listenCommUpHandler s e a1
      = (s._construct e a1, [Effect.wireAssocEvents a1, Effect.emit "connect"]) := by
    simp only [listenCommUpHandler]
    rw [if_pos ⟨h1p, h1h⟩]
  have hs1p : (s._construct e a1).port = some a2.remotePort := by
    rw [h2p]; simpa [Socket._construct] using h1p
  have hs1h : (s._construct e a1).host = some a2.remoteAddress := by
    rw [h2h]; simpa [Socket._construct] using h1h
  have hc2 : listenCommUpHandler (s._construct e a1) e a2
      = ((s._construct e a1)._construct e a2,
          [Effect.wireAssocEvents a2, Effect.emit "connect"]) := by
    simp only [listenCommUpHandler]
    rw [if_pos ⟨hs1p, hs1h⟩]
  have hmisb : ¬((s._construct e a1).port = some b.remotePort ∧
      (s._construct e a1).host = some b.remoteAddress) := by
    rintro ⟨h1, _⟩
    rw [show (s._construct e a1).port = s.port by simp [Socket._construct], h1p] at h1
    exact hbp (Option.some_injective _ h1).symm
  have hcb : listenCommUpHandler (s._construct e a1) e b
      = (s._construct e a1, [Effect.abortCall b]) := by
    simp only [listenCommUpHandler]
    rw [if_neg hmisb]
  rw [hc1]
  refine ⟨by simp [Socket._construct], ?_, ?_, ?_, ?_⟩
  · rw [hc2]; simp [Socket._construct]
  · rw [hc2]; simp
  · rw [hcb]
  · rw [hcb]; simp

theorem C2_rebind_behavior_witness :
    (listenCommUpHandler listenSock endpointEx assocA).1._association = some assocA ∧
    (listenCommUpHandler (listenCommUpHandler listenSock endpointEx assocA).1
        endpointEx assocB).1._association = some assocB ∧
    Effect.abortCall assocB
      ∉ (listenCommUpHandler (listenCommUpHandler listenSock endpointEx assocA).1
          endpointEx assocB).2 ∧
    (listenCommUpHandler (listenCommUpHandler listenSock endpointEx assocA).1
        endpointEx assocOther).1
      = (listenCommUpHandler listenSock endpointEx assocA).1 ∧
    Effect.abortCall assocOther
      ∈ (listenCommUpHandler (listenCommUpHandler listenSock endpointEx assocA).1
          endpointEx assocOther).2 :=
  C2_rebind_behavior listenSock endpointEx assocA assocB assocOther
    rfl rfl rfl rfl (by decide)

/-- C3 counterexample: a first `connect()` with absent options does throw
the explicit error synchronously and allocates no endpoint, but not
before a side effect on the socket's state: the one-shot `p2p` flag is
already set when the error is thrown, so the failed call consumes the
socket's single connect attempt. -/
theorem C3_p2p_set_before_throw :
    (freshSock.connect JSArg.undef false (fun _ => some endpointEx) assocOracle).thrown
      = some (JsError.error "options required") ∧
    (freshSock.connect JSArg.undef false (fun _ => some endpointEx) assocOracle).effects = [] ∧
    (freshSock.connect JSArg.undef false (fun _ => some endpointEx) assocOracle).state.p2p
      = true ∧
    freshSock.p2p = false := by decide

/-- C3 (amended): on a first `connect` call whose options are absent,
fail the typeof-object test, or carry a port that coerces to zero,
connect throws an explicit error synchronously and performs no effect —
in particular no endpoint allocation — but the throw happens after one
side effect on the socket's state: the one-shot `p2p` flag is set. -/
theorem C3_validation_throws (s : Socket) (hl : Bool)
    (INITIALIZE : InitOptions → Option Endpoint) (associate : AssocOptions → Association)
    (arg : JSArg) (hp2p : s.p2p = false)
    (hbad : arg = JSArg.undef ∨ arg = JSArg.nonObjectValue ∨
      ∃ o, arg = JSArg.obj o ∧ o.port.toInt32 = 0) :
    (s.connect arg hl INITIALIZE associate).effects = [] ∧
    (s.connect arg hl INITIALIZE associate).state = { s with p2p := true } ∧
    ((s.connect arg hl INITIALIZE associate).thrown = some (JsError.error "options required") ∨
      (s.connect arg hl INITIALIZE associate).thrown
        = some (JsError.error "port is required")) := by
  rcases hbad with rfl | rfl | ⟨o, rfl, hport⟩
  · simp [Socket.connect, hp2p]
  · simp [Socket.connect, hp2p]
  · simp [Socket.connect, hp2p, hport]

theorem C3_validation_throws_witness :
    (freshSock.connect (JSArg.obj { port := JSVal.num 0 }) false (fun _ => some endpointEx)
        assocOracle).effects = [] ∧
    (freshSock.connect (JSArg.obj { port := JSVal.num 0 }) false (fun _ => some endpointEx)
        assocOracle).state = { freshSock with p2p := true } ∧
    ((freshSock.connect (JSArg.obj { port := JSVal.num 0 }) false (fun _ => some endpointEx)
        assocOracle).thrown = some (JsError.error "options required") ∨
      (freshSock.connect (JSArg.obj { port := JSVal.num 0 }) false (fun _ => some endpointEx)
        assocOracle).thrown = some (JsError.error "port is required")) :=
  C3_validation_throws freshSock false (fun _ => some endpointEx) assocOracle
    (JSArg.obj { port := JSVal.num 0 }) rfl
    (Or.inr (Or.inr ⟨{ port := JSVal.num 0 }, rfl, by decide⟩))

/-- Options for a connect attempt that requests local port 90. -/
def failOptions : ConnectOptions := { port := JSVal.num 9, localPort := JSVal.num 90 }

/-- C4 counterexample: when `Endpoint.INITIALIZE` yields no endpoint,
the socket does emit an `error` event naming the requested local port,
but `connect` then also raises synchronously: execution continues and
dereferences the absent endpoint, throwing a TypeError. -/
theorem C4_throws_after_emit :
    Effect.emitError "unable to allocate port 90"
      ∈ (freshSock.connect (JSArg.obj failOptions) false (fun _ => none) assocOracle).effects ∧
    (freshSock.connect (JSArg.obj failOptions) false (fun _ => none) assocOracle).thrown
      = some (JsError.typeError "Cannot read properties of null (reading ASSOCIATE)") := by
  decide

/-- C4 (amended): on a first `connect` whose port validates but whose
endpoint acquisition fails, the socket emits an `error` event whose
message names the requested local port, and connect then raises a
TypeError synchronously; the socket is never bound by the call. -/
theorem C4_alloc_failure_behavior (s : Socket) (o : ConnectOptions) (hl : Bool)
    (INITIALIZE : InitOptions → Option Endpoint) (associate : AssocOptions → Association)
    (hp2p : s.p2p = false) (hport : o.port.toInt32 ≠ 0)
    (hfail : INITIALIZE (mkInitOptions o) = none) :
    Effect.emitError ("unable to allocate port " ++ showOptInt (mkInitOptions o).localPort)
      ∈ (s.connect (JSArg.obj o) hl INITIALIZE associate).effects ∧
    (s.connect (JSArg.obj o) hl INITIALIZE associate).thrown.isSome = true ∧
    (s.connect (JSArg.obj o) hl INITIALIZE associate).state._association
      = s._association := by
  by_cases hlis : o.listen.truthy
  · refine ⟨?_, ?_, ?_⟩ <;> simp [Socket.connect, hp2p, hport, hfail, hlis]
  · refine ⟨?_, ?_, ?_⟩ <;> simp [Socket.connect, hp2p, hport, hfail, hlis]

theorem C4_alloc_failure_behavior_witness :
    Effect.emitError ("unable to allocate port " ++ showOptInt (mkInitOptions failOptions).localPort)
      ∈ (freshSock.connect (JSArg.obj failOptions) false (fun _ => none) assocOracle).effects ∧
    (freshSock.connect (JSArg.obj failOptions) false (fun _ => none) assocOracle).thrown.isSome
      = true ∧
    (freshSock.connect (JSArg.obj failOptions) false (fun _ => none) assocOracle).state._association
      = freshSock._association :=
  C4_alloc_failure_behavior freshSock failOptions false (fun _ => none) assocOracle
    rfl (by decide) rfl

/-! Helper lemmas for the counter invariant. -/

theorem countersZero_construct (s : Socket) (e : Endpoint) (a : Association) :
    countersZero (s._construct e a) := by
  simp [countersZero, Socket._construct]

theorem destroy_state (s : Socket) (err : Option String) (r : Bool) :
    (s._destroy err r).state = s := by
  cases hA : s._association <;> simp [Socket._destroy, hA]

theorem connect_state_cases (s : Socket) (o : JSArg) (hl : Bool)
    (I : InitOptions → Option Endpoint) (A : AssocOptions → Association) :
    (s.connect o hl I A).state = s ∨ (s.connect o hl I A).state = { s with p2p := true } ∨
    ∃ e a, (s.connect o hl I A).state = Socket._construct { s with p2p := true } e a := by
  by_cases hp : s.p2p
  · left; simp [Socket.connect, hp]
  · cases o with
    | undef => right; left; simp [Socket.connect, hp]
    | nonObjectValue => right; left; simp [Socket.connect, hp]
    | null => right; left; simp [Socket.connect, hp]
    | obj oo =>
      by_cases hz : oo.port.toInt32 = 0
      · right; left; simp [Socket.connect, hp, hz]
      · cases hE : I (mkInitOptions oo) with
        | none =>
          by_cases hl2 : oo.listen.truthy <;>
            (right; left; simp [Socket.connect, hp, hz, hE, hl2])
        | some e =>
          by_cases hl2 : oo.listen.truthy
          · right; left; simp [Socket.connect, hp, hz, hE, hl2]
          · right; right
            exact ⟨e, A (mkAssocOptions oo), by simp [Socket.connect, hp, hz, hE, hl2]⟩

theorem stepState_counters (s : Socket) (op : SocketOp) (h : countersZero s) :
    countersZero (stepState s op) := by
  cases op with
  | write c => exact h
  | read n => exact h
  | finalize => exact h
  | destroy err r =>
    simpa [stepState, destroy_state] using h
  | defaultSendParam o =>
    simpa [stepState, Socket.SCTP_DEFAULT_SEND_PARAM, countersZero] using h
  | assocInfo o =>
    simp only [stepState, Socket.SCTP_ASSOCINFO]
    repeat' split
    all_goals simpa [countersZero] using h
  | peerAddrParams o =>
    simp only [stepState, Socket.SCTP_PEER_ADDR_PARAMS]
    repeat' split
    all_goals simpa [countersZero] using h
  | connectCall o hl I A =>
    rcases connect_state_cases s o hl I A with hc | hc | ⟨e, a, hc⟩
    · simpa [stepState, hc] using h
    · simp only [stepState, hc]
      simpa [countersZero] using h
    · simp only [stepState, hc]
      exact countersZero_construct _ e a
  | assocCommUp => exact h
  | dataArrive rcv sid => exact h
  | shutdownComplete => exact h
  | commLost => exact h
  | commError => exact h
  | listenCommUp e a =>
    simp only [stepState, listenCommUpHandler]
    split
    · exact countersZero_construct _ e a
    · exact h

theorem foldl_stepState_counters (ops : List SocketOp) (s : Socket) (h : countersZero s) :
    countersZero (ops.foldl stepState s) := by
  induction ops generalizing s with
  | nil => exact h
  | cons op rest ih => exact ih (stepState s op) (stepState_counters s op h)

/-- C10: `_construct` sets `bytesRead`, `bytesWritten` and `bufferSize`
to 0, and no subsequent operation — writes, reads, the half-close and
destroy paths, the parameter setters, further connect calls, or any of
the registered event listeners — ever changes them: after any sequence
of operations on a bound socket all three counters still hold 0. -/
theorem C10_counters_frozen (s : Socket) (e0 : Endpoint)
    (a : Association) (ops : List SocketOp) :
    countersZero (s._construct e0 a) ∧
    countersZero (ops.foldl stepState (s._construct e0 a)) :=
  ⟨countersZero_construct s e0 a,
    foldl_stepState_counters ops (s._construct e0 a) (countersZero_construct s e0 a)⟩

end NodeSctp
